import Mathlib

/-!
Verification of the drift-gate evaluation and scan-wait protocol of the
controlinfra CLI.  The definitions below are a shallow embedding of
`src/commands/scan.js` (functions `evaluateDriftGate`, `waitForScan`, `wait`)
and of the extracted copy of the gate evaluator in the scan-output module.
JavaScript objects with optional fields are modelled with `Option`; the
severity table and truthiness tests are translated field by field.
-/

namespace ControlInfra

/-- ASCII lowercasing, modelling the JavaScript `String.prototype.toLowerCase()`
calls in the source (applied there to severity identifiers drawn from the
ASCII alphabet). -/
def jsToLower (s : String) : String := ⟨s.data.map Char.toLower⟩

/-- Aggregate drift summary attached to a scan (`scan.driftResults`).
Both fields may be absent on the wire, hence `Option`. -/
structure DriftResults where
  hasDrift : Option Bool
  totalDrifts : Option Int
  deriving Repr, DecidableEq

/-- A scan object as consumed by the poller and the gate evaluator:
a server-reported status string and an optional drift summary. -/
structure Scan where
  status : String
  driftResults : Option DriftResults
  deriving Repr, DecidableEq

/-- One detected drift, as consumed by the gate evaluator: an optional
severity string and an optional `isNew` flag (only `isNew === true` counts). -/
structure Drift where
  severity : Option String
  isNew : Option Bool
  deriving Repr, DecidableEq

/-- Gate options (`failOnDrift`, `failOnSeverity`, `failOnNewOnly`).
`failOnSeverity` may be null/undefined (`none`) or any string, the empty
string included, matching the JavaScript truthiness tests in the source. -/
structure GateOptions where
  failOnDrift : Bool
  failOnSeverity : Option String
  failOnNewOnly : Bool
  deriving Repr, DecidableEq

/-- The fixed severity table `{critical: 4, high: 3, medium: 2, low: 1}`;
`none` models an absent entry for an unrecognized key. -/
def severityOrder (s : String) : Option Nat :=
  if s == "critical" then some 4
  else if s == "high" then some 3
  else if s == "medium" then some 2
  else if s == "low" then some 1
  else none

/-- JavaScript truthiness of the `failOnSeverity` option: falsy when
null/undefined or the empty string. -/
def severityFalsy : Option String → Bool
  | none => true
  | some s => s == ""

/-- Severity rank of a drift: `severityOrder[drift.severity?.toLowerCase()] || 0`.
A missing or unrecognized severity ranks 0. -/
def driftRank (d : Drift) : Nat :=
  match d.severity with
  | none => 0
  | some s => (severityOrder (jsToLower s)).getD 0

/-- The first check of the gate: `!driftResults.hasDrift || driftResults.totalDrifts === 0`
after `scan.driftResults || {}`. True exactly when the gate returns 0 at once. -/
def summaryBlocks (scan : Scan) : Bool :=
  match scan.driftResults with
  | none => true
  | some dr => !(dr.hasDrift == some true) || (dr.totalDrifts == some 0)

/-- The `relevantDrifts` list: filtered to `isNew === true` when
`failOnNewOnly` is set, otherwise the drift details unfiltered. -/
def relevantDrifts (driftDetails : List Drift) (options : GateOptions) : List Drift :=
  if options.failOnNewOnly then
    driftDetails.filter (fun d => d.isNew == some true)
  else driftDetails

/-- Translation of `evaluateDriftGate` from `src/commands/scan.js`, lines 43-87.
The first component is the returned exit code; the second records whether
`outputError` was invoked (only on the invalid `failOnSeverity` path). -/
def evaluateDriftGateCore (scan : Scan) (driftDetails : List Drift)
    (options : GateOptions) : Nat × Bool :=
  if summaryBlocks scan then (0, false)
  else
    let relevant := relevantDrifts driftDetails options
    if relevant.length == 0 then (0, false)
    else if options.failOnDrift && severityFalsy options.failOnSeverity then (1, false)
    else
      match options.failOnSeverity with
      | some lvl =>
        if lvl == "" then (0, false)
        else
          match severityOrder (jsToLower lvl) with
          | none => (1, true)
          | some threshold =>
            if relevant.any (fun d => threshold ≤ driftRank d) then (1, false)
            else (0, false)
      | none => (0, false)

/-- The exit code returned by `evaluateDriftGate`. -/
def evaluateDriftGate (scan : Scan) (driftDetails : List Drift)
    (options : GateOptions) : Nat :=
  (evaluateDriftGateCore scan driftDetails options).1

end ControlInfra

namespace ControlInfra.ScanOutput

/-- Severity table of the extracted gate evaluator in the scan-output module. -/
def severityOrder (s : String) : Option Nat :=
  if s == "critical" then some 4
  else if s == "high" then some 3
  else if s == "medium" then some 2
  else if s == "low" then some 1
  else none

/-- Drift severity rank in the extracted evaluator. -/
def driftRank (d : Drift) : Nat :=
  match d.severity with
  | none => 0
  | some s => (severityOrder (jsToLower s)).getD 0

/-- First check of the extracted evaluator. -/
def summaryBlocks (scan : Scan) : Bool :=
  match scan.driftResults with
  | none => true
  | some dr => !(dr.hasDrift == some true) || (dr.totalDrifts == some 0)

/-- Relevant-drift filter of the extracted evaluator. -/
def relevantDrifts (driftDetails : List Drift) (options : GateOptions) : List Drift :=
  if options.failOnNewOnly then
    driftDetails.filter (fun d => d.isNew == some true)
  else driftDetails

/-- Translation of `evaluateDriftGate` from the scan-output module
(`scan-output.js`, lines 9-48), exit code paired with the error-report flag. -/
def evaluateDriftGateCore (scan : Scan) (driftDetails : List Drift)
    (options : GateOptions) : Nat × Bool :=
  if summaryBlocks scan then (0, false)
  else
    let relevant := relevantDrifts driftDetails options
    if relevant.length == 0 then (0, false)
    else if options.failOnDrift && severityFalsy options.failOnSeverity then (1, false)
    else
      match options.failOnSeverity with
      | some lvl =>
        if lvl == "" then (0, false)
        else
          match severityOrder (jsToLower lvl) with
          | none => (1, true)
          | some threshold =>
            if relevant.any (fun d => threshold ≤ driftRank d) then (1, false)
            else (0, false)
      | none => (0, false)

/-- Exit code of the extracted gate evaluator. -/
def evaluateDriftGate (scan : Scan) (driftDetails : List Drift)
    (options : GateOptions) : Nat :=
  (evaluateDriftGateCore scan driftDetails options).1

end ControlInfra.ScanOutput

namespace ControlInfra

/-- A scan summary that reports drift: the first check of the gate does not
short-circuit to 0. -/
def summaryReportsDrift (scan : Scan) : Prop := summaryBlocks scan = false

instance (scan : Scan) : Decidable (summaryReportsDrift scan) := by
  unfold summaryReportsDrift; infer_instance

/-- Outcome of the wait loop, one of the four contractual outcomes of the
poller; `pending` is the model artifact for a scripted fetch sequence that
is exhausted while the loop would still be polling. -/
inductive WaitOutcome where
  | success (scan : Scan)
  | scanFailed (scan : Scan)
  | scanCancelled (scan : Scan)
  | timedOut
  | transportError (msg : String)
  | pending
  deriving Repr, DecidableEq

/-- The fixed terminal status set of the poller. -/
def terminalStatuses : List String := ["completed", "failed", "cancelled"]

/-- The fixed, non-configurable poll interval of 3000 ms. -/
def pollInterval : Nat := 3000

/-- The polling loop of `waitForScan` (`scan.js`, lines 377-461), modelled
over a scripted list of fetch results: each loop iteration first checks
`Date.now() - startTime < timeout`, then performs one fetch (which may throw,
caught as a transport error), dispatches on terminal statuses, and otherwise
sleeps `pollInterval` and retries.  Time is idealized so that the sleep is the
only passage of time.  Returns the outcome together with the number of fetch
calls made. -/
def waitForScanLoop (timeoutMs : Nat) :
    List (Except String Scan) → Nat → WaitOutcome × Nat
  | [], elapsed =>
    if elapsed < timeoutMs then (WaitOutcome.pending, 0) else (WaitOutcome.timedOut, 0)
  | fetch :: rest, elapsed =>
    if elapsed < timeoutMs then
      match fetch with
      | Except.error msg => (WaitOutcome.transportError msg, 1)
      | Except.ok scan =>
        if terminalStatuses.contains scan.status then
          if scan.status == "completed" then (WaitOutcome.success scan, 1)
          else if scan.status == "failed" then (WaitOutcome.scanFailed scan, 1)
          else (WaitOutcome.scanCancelled scan, 1)
        else
          let r := waitForScanLoop timeoutMs rest (elapsed + pollInterval)
          (r.1, r.2 + 1)
    else (WaitOutcome.timedOut, 0)

/-- The poller: run the wait loop from elapsed time 0. -/
def waitForScan (fetches : List (Except String Scan)) (timeoutMs : Nat) :
    WaitOutcome × Nat :=
  waitForScanLoop timeoutMs fetches 0

/-- A scripted fetch that keeps the loop polling: a successful fetch whose
status is not in the terminal set. -/
def inFlightFetch : Except String Scan → Bool
  | Except.error _ => false
  | Except.ok scan => !(terminalStatuses.contains scan.status)

/-- Result of the detail fetch `drifts.getByScan` performed after a completed
scan: a list of drifts, a non-array value, or a thrown error. -/
inductive DriftFetch where
  | ok (drifts : List Drift)
  | nonArray
  | throws
  deriving Repr, DecidableEq

/-- The drift details the completion handler ends up with: the fetched array,
or `[]` when the fetch threw or returned a non-array value. -/
def fetchedDriftDetails : DriftFetch → List Drift
  | DriftFetch.ok l => l
  | DriftFetch.nonArray => []
  | DriftFetch.throws => []

/-- The drift count used by the completion handler:
`scan.driftResults?.totalDrifts || 0`. -/
def driftCount (scan : Scan) : Int :=
  match scan.driftResults with
  | none => 0
  | some dr => dr.totalDrifts.getD 0

/-- `options.failOnDrift || options.failOnSeverity` under JavaScript
truthiness: whether any gate flag is configured. -/
def hasGateOptions (options : GateOptions) : Bool :=
  options.failOnDrift || !(severityFalsy options.failOnSeverity)

/-- The completed-scan handling of `waitForScan` (`scan.js`, lines 385-441),
reduced to the process exit code it produces: with drifts present and gate
options configured, `process.exit(1)` on a failing gate, otherwise a normal
return (exit code 0). -/
def handleCompleted (scan : Scan) (driftFetch : DriftFetch)
    (options : GateOptions) : Nat :=
  if 0 < driftCount scan then
    if hasGateOptions options then
      if evaluateDriftGate scan (fetchedDriftDetails driftFetch) options == 1 then 1
      else 0
    else 0
  else 0

/-- Exit code of the whole wait-for-scan operation (`wait` plus `waitForScan`
in `scan.js`): exit 1 before polling when the scan id does not resolve;
otherwise the poller runs and its outcome is mapped to the process exit code.
`none` only for the model artifact of an exhausted fetch script. -/
def waitOperationExit (resolved : Bool) (fetches : List (Except String Scan))
    (timeoutMs : Nat) (driftFetch : DriftFetch) (options : GateOptions) :
    Option Nat :=
  if !resolved then some 1
  else
    match (waitForScan fetches timeoutMs).1 with
    | WaitOutcome.success scan => some (handleCompleted scan driftFetch options)
    | WaitOutcome.scanFailed _ => some 2
    | WaitOutcome.scanCancelled _ => some 2
    | WaitOutcome.timedOut => some 2
    | WaitOutcome.transportError _ => some 2
    | WaitOutcome.pending => none

-- sanity checks against the concrete scenarios of the spec
example :
    evaluateDriftGate ⟨"completed", some ⟨some false, some 0⟩⟩ [] ⟨true, some "low", false⟩ = 0 := by
  decide

example :
    evaluateDriftGate ⟨"completed", some ⟨some true, some 2⟩⟩
      [⟨some "medium", some true⟩, ⟨some "low", some true⟩] ⟨true, none, false⟩ = 1 := by
  decide

example :
    evaluateDriftGate ⟨"completed", some ⟨some true, some 2⟩⟩
      [⟨some "low", some true⟩] ⟨false, some "critical", false⟩ = 0 := by
  decide

example :
    evaluateDriftGate ⟨"completed", some ⟨some true, some 2⟩⟩
      [⟨some "medium", some true⟩] ⟨false, some "invalid-level", false⟩ = 1 := by
  decide

example :
    evaluateDriftGate ⟨"completed", some ⟨some true, some 2⟩⟩
      [⟨some "critical", some false⟩, ⟨some "low", some true⟩]
      ⟨false, some "high", true⟩ = 0 := by
  decide

example :
    evaluateDriftGate ⟨"completed", some ⟨some true, some 2⟩⟩
      [⟨some "HIGH", some true⟩] ⟨false, some "high", false⟩ = 1 := by
  decide

example :
    evaluateDriftGate ⟨"completed", some ⟨some true, some 2⟩⟩
      [⟨none, some true⟩] ⟨false, some "low", false⟩ = 0 := by
  decide

example :
    waitForScan
      [Except.ok ⟨"queued", none⟩, Except.ok ⟨"running", none⟩,
       Except.ok ⟨"completed", some ⟨some true, some 2⟩⟩] 600000 =
    (WaitOutcome.success ⟨"completed", some ⟨some true, some 2⟩⟩, 3) := by
  decide

example :
    waitForScan [Except.ok ⟨"queued", none⟩, Except.ok ⟨"cancelled", none⟩] 600000 =
    (WaitOutcome.scanCancelled ⟨"cancelled", none⟩, 2) := by
  decide

example :
    waitForScan [Except.ok ⟨"queued", none⟩, Except.ok ⟨"running", none⟩] 6000 =
    (WaitOutcome.timedOut, 2) := by
  decide

example : waitForScan [Except.error "ECONNRESET"] 600000 =
    (WaitOutcome.transportError "ECONNRESET", 1) := by
  decide

/-! Helper lemmas about the gate evaluator. -/

theorem jsToLower_empty : jsToLower "" = "" := rfl

theorem beq_empty_false_of_severityOrder {lvl : String} {threshold : Nat}
    (h : severityOrder (jsToLower lvl) = some threshold) : (lvl == "") = false := by
  cases hb : lvl == "" with
  | false => rfl
  | true =>
    have hl : lvl = "" := by simpa using hb
    subst hl
    simp [jsToLower_empty, severityOrder] at h

theorem relevantDrifts_nil (options : GateOptions) : relevantDrifts [] options = [] := by
  unfold relevantDrifts
  split <;> rfl

theorem mem_relevantDrifts {x : Drift} {dd : List Drift} {options : GateOptions} :
    x ∈ relevantDrifts dd options ↔
      x ∈ dd ∧ (options.failOnNewOnly = true → x.isNew = some true) := by
  unfold relevantDrifts
  split
  · rename_i h
    simp [List.mem_filter, h]
  · rename_i h
    simp [Bool.not_eq_true] at h
    simp [h]

theorem evaluateDriftGateCore_of_summaryBlocks {scan : Scan} (dd : List Drift)
    (options : GateOptions) (h : summaryBlocks scan = true) :
    evaluateDriftGateCore scan dd options = (0, false) := by
  unfold evaluateDriftGateCore
  simp [h]

theorem evaluateDriftGateCore_of_relevant_nil {scan : Scan} {dd : List Drift}
    {options : GateOptions} (h : relevantDrifts dd options = []) :
    evaluateDriftGateCore scan dd options = (0, false) := by
  unfold evaluateDriftGateCore
  split
  · rfl
  · simp [h]

theorem gate_one_iff (scan : Scan) (dd : List Drift) (options : GateOptions)
    (lvl : String) (threshold : Nat)
    (hreport : summaryBlocks scan = false)
    (hsev : options.failOnSeverity = some lvl)
    (hthr : severityOrder (jsToLower lvl) = some threshold) :
    evaluateDriftGate scan dd options = 1 ↔
      ∃ d ∈ relevantDrifts dd options, threshold ≤ driftRank d := by
  have hne : (lvl == "") = false := beq_empty_false_of_severityOrder hthr
  unfold evaluateDriftGate evaluateDriftGateCore
  rcases hrel : relevantDrifts dd options with _ | ⟨r, rs⟩
  · simp [hreport, hrel]
  · simp [hreport, hrel, hsev, hne, severityFalsy, hthr, List.any_eq_true]
    by_cases h : threshold ≤ driftRank r ∨ ∃ x ∈ rs, threshold ≤ driftRank x <;> simp [h]

theorem evaluateDriftGateCore_cases (scan : Scan) (dd : List Drift)
    (options : GateOptions) :
    evaluateDriftGateCore scan dd options = (0, false) ∨
      evaluateDriftGateCore scan dd options = (1, false) ∨
      evaluateDriftGateCore scan dd options = (1, true) := by
  unfold evaluateDriftGateCore
  dsimp only
  repeat' split
  all_goals simp

theorem evaluateDriftGateCore_congr_relevant (scan : Scan) {d1 d2 : List Drift}
    (options : GateOptions)
    (h : relevantDrifts d1 options = relevantDrifts d2 options) :
    evaluateDriftGateCore scan d1 options = evaluateDriftGateCore scan d2 options := by
  unfold evaluateDriftGateCore
  rw [h]

/-! Claim theorems. -/

/-- Claim C1: for a scan whose summary reports drift and a recognized
(case-insensitively compared) `failOnSeverity` level, `evaluateDriftGate`
returns 1 if and only if some relevant drift has severity rank at least the
threshold rank under the fixed table `{critical: 4, high: 3, medium: 2,
low: 1}`; comparison is inclusive, and a drift with a missing severity field
ranks 0, so it never causes failure even under threshold `low`. -/
theorem evaluateDriftGate_severity_threshold_iff
    (scan : Scan) (driftDetails : List Drift) (options : GateOptions)
    (lvl : String) (threshold : Nat)
    (hreport : summaryReportsDrift scan)
    (hsev : options.failOnSeverity = some lvl)
    (hthr : severityOrder (jsToLower lvl) = some threshold) :
    (evaluateDriftGate scan driftDetails options = 1 ↔
      ∃ d ∈ relevantDrifts driftDetails options, threshold ≤ driftRank d) ∧
    (∀ b : Option Bool, driftRank ⟨none, b⟩ = 0) :=
  ⟨gate_one_iff scan driftDetails options lvl threshold hreport hsev hthr,
   fun _ => rfl⟩

/-- Witness for C1 at a concrete input: threshold `"High"` (rank 3) over a
drift list containing a `"HIGH"` drift and a severity-less drift. -/
theorem evaluateDriftGate_severity_threshold_iff_witness :
    (evaluateDriftGate ⟨"completed", some ⟨some true, some 2⟩⟩
        [⟨some "HIGH", some true⟩, ⟨none, some true⟩]
        ⟨false, some "High", false⟩ = 1 ↔
      ∃ d ∈ relevantDrifts [⟨some "HIGH", some true⟩, ⟨none, some true⟩]
          ⟨false, some "High", false⟩, 3 ≤ driftRank d) ∧
    (∀ b : Option Bool, driftRank ⟨none, b⟩ = 0) :=
  evaluateDriftGate_severity_threshold_iff _ _ _ "High" 3 (by decide) rfl (by decide)

/-- Claim C2: the gate returns 0 whenever `scan.driftResults` is absent, or
`hasDrift` is false, or `totalDrifts === 0`, regardless of the drift list and
of the gate options, contradictory or malformed ones included. -/
theorem evaluateDriftGate_no_drift_passes
    (scan : Scan) (driftDetails : List Drift) (options : GateOptions)
    (h : scan.driftResults = none ∨
      ∃ dr, scan.driftResults = some dr ∧
        (dr.hasDrift = some false ∨ dr.totalDrifts = some 0)) :
    evaluateDriftGate scan driftDetails options = 0 := by
  have hblocks : summaryBlocks scan = true := by
    rcases h with h | ⟨dr, hdr, h⟩
    · simp [summaryBlocks, h]
    · rcases h with h | h <;> simp [summaryBlocks, hdr, h]
  simp [evaluateDriftGate, evaluateDriftGateCore_of_summaryBlocks _ _ hblocks]

/-- Witness for C2 at a concrete input: a zero-drift summary together with
contradictory and malformed gate flags still passes. -/
theorem evaluateDriftGate_no_drift_passes_witness :
    evaluateDriftGate ⟨"completed", some ⟨some true, some 0⟩⟩
      [⟨some "critical", some true⟩] ⟨true, some "garbage", true⟩ = 0 :=
  evaluateDriftGate_no_drift_passes _ _ _ (Or.inr ⟨_, rfl, Or.inr rfl⟩)

/-- Claim C5: with drift reported and a non-empty relevant list, `failOnDrift` with
falsy `failOnSeverity` fails the gate; and when `failOnSeverity` is also set
it takes precedence: the result is independent of `failOnDrift`, and a
relevant list entirely below the threshold passes even with `failOnDrift`. -/
theorem evaluateDriftGate_failOnDrift_and_severity_precedence
    (scan : Scan) (driftDetails : List Drift) (options : GateOptions)
    (hreport : summaryReportsDrift scan)
    (hrel : relevantDrifts driftDetails options ≠ []) :
    (options.failOnDrift = true → severityFalsy options.failOnSeverity = true →
      evaluateDriftGate scan driftDetails options = 1) ∧
    (∀ lvl, options.failOnSeverity = some lvl → lvl ≠ "" →
      evaluateDriftGate scan driftDetails options =
        evaluateDriftGate scan driftDetails
          ⟨false, options.failOnSeverity, options.failOnNewOnly⟩ ∧
      (∀ threshold, severityOrder (jsToLower lvl) = some threshold →
        (∀ d ∈ relevantDrifts driftDetails options, driftRank d < threshold) →
        evaluateDriftGate scan driftDetails options = 0)) := by
  have hb : summaryBlocks scan = false := hreport
  obtain ⟨r, rs, hr⟩ : ∃ r rs, relevantDrifts driftDetails options = r :: rs := by
    rcases h : relevantDrifts driftDetails options with _ | ⟨r, rs⟩
    · exact absurd h hrel
    · exact ⟨r, rs, rfl⟩
  constructor
  · intro hfod hfalsy
    unfold evaluateDriftGate evaluateDriftGateCore
    simp [hb, hr, hfod, hfalsy]
  · intro lvl hsev hne
    have hne' : (lvl == "") = false := by simpa using hne
    have hrel2 :
        relevantDrifts driftDetails ⟨false, some lvl, options.failOnNewOnly⟩ =
          relevantDrifts driftDetails options := by
      unfold relevantDrifts
      rfl
    constructor
    · rw [hsev]
      unfold evaluateDriftGate evaluateDriftGateCore
      simp [hb, hrel2, hr, hsev, severityFalsy, hne']
    · intro threshold hthr hbelow
      have hiff := gate_one_iff scan driftDetails options lvl threshold hb hsev hthr
      rcases evaluateDriftGateCore_cases scan driftDetails options with h | h | h
      · simp [evaluateDriftGate, h]
      all_goals
        exfalso
        rcases hiff.mp (by simp [evaluateDriftGate, h]) with ⟨d, hd, hrank⟩
        exact absurd hrank (not_le.mpr (hbelow d hd))

/-- Witness for C5 at concrete inputs: the same non-empty drift list fails
under bare `failOnDrift` and passes when `failOnSeverity: "critical"` is also
set and the list stays below the threshold. -/
theorem evaluateDriftGate_failOnDrift_and_severity_precedence_witness :
    evaluateDriftGate ⟨"completed", some ⟨some true, some 2⟩⟩
      [⟨some "low", some true⟩] ⟨true, none, false⟩ = 1 ∧
    evaluateDriftGate ⟨"completed", some ⟨some true, some 2⟩⟩
      [⟨some "low", some true⟩] ⟨true, some "critical", false⟩ = 0 :=
  ⟨(evaluateDriftGate_failOnDrift_and_severity_precedence _ _
      ⟨true, none, false⟩ (by decide) (by decide)).1 rfl rfl,
   ((evaluateDriftGate_failOnDrift_and_severity_precedence _ _
      ⟨true, some "critical", false⟩ (by decide) (by decide)).2 "critical" rfl
      (by decide)).2 4 (by decide) (by decide)⟩

/-- Claim C6: with `failOnNewOnly = true` the gate result depends only on entries
with `isNew === true`: appending drifts that are not strictly new never
changes the result, and when no entry is strictly new the gate passes even if
the scan-level summary reports drift. -/
theorem evaluateDriftGate_newOnly_depends_on_new
    (scan : Scan) (driftDetails extra : List Drift) (options : GateOptions)
    (hnew : options.failOnNewOnly = true) :
    ((∀ d ∈ extra, d.isNew ≠ some true) →
      evaluateDriftGate scan (driftDetails ++ extra) options =
        evaluateDriftGate scan driftDetails options) ∧
    ((∀ d ∈ driftDetails, d.isNew ≠ some true) →
      evaluateDriftGate scan driftDetails options = 0) := by
  constructor
  · intro hextra
    have hnil : extra.filter (fun d => d.isNew == some true) = [] := by
      rw [List.filter_eq_nil_iff]
      intro a ha
      simpa using hextra a ha
    have hfil : relevantDrifts (driftDetails ++ extra) options =
        relevantDrifts driftDetails options := by
      unfold relevantDrifts
      simp [hnew, List.filter_append, hnil]
    unfold evaluateDriftGate
    rw [evaluateDriftGateCore_congr_relevant scan options hfil]
  · intro hall
    have hnil : relevantDrifts driftDetails options = [] := by
      unfold relevantDrifts
      rw [if_pos hnew, List.filter_eq_nil_iff]
      intro a ha
      simpa using hall a ha
    simp [evaluateDriftGate, evaluateDriftGateCore_of_relevant_nil hnil]

/-- Witness for C6 at concrete inputs: appending a recurring and a flag-less
critical drift changes nothing, and a list with no strictly-new entry passes
although the summary reports five drifts. -/
theorem evaluateDriftGate_newOnly_depends_on_new_witness :
    (evaluateDriftGate ⟨"completed", some ⟨some true, some 5⟩⟩
        ([⟨some "critical", some true⟩] ++
          [⟨some "critical", some false⟩, ⟨some "critical", none⟩])
        ⟨true, none, true⟩ =
      evaluateDriftGate ⟨"completed", some ⟨some true, some 5⟩⟩
        [⟨some "critical", some true⟩] ⟨true, none, true⟩) ∧
    evaluateDriftGate ⟨"completed", some ⟨some true, some 5⟩⟩
      [⟨some "critical", some false⟩, ⟨some "critical", none⟩]
      ⟨true, none, true⟩ = 0 :=
  ⟨(evaluateDriftGate_newOnly_depends_on_new _ _ _ _ rfl).1 (by decide),
   (evaluateDriftGate_newOnly_depends_on_new _
      [⟨some "critical", some false⟩, ⟨some "critical", none⟩] [] _ rfl).2 (by decide)⟩

/-- Claim C7: the gate always resolves to 0 or 1; when it reaches the severity
check with an unrecognized configured level it reports an error and returns 1;
a malformed severity on an individual drift silently ranks 0, and the error
report is only ever produced by an invalid configured level, never by a drift. -/
theorem evaluateDriftGate_error_semantics :
    (∀ (scan : Scan) (dd : List Drift) (options : GateOptions),
      evaluateDriftGate scan dd options = 0 ∨ evaluateDriftGate scan dd options = 1) ∧
    (∀ (scan : Scan) (dd : List Drift) (options : GateOptions) (lvl : String),
      summaryReportsDrift scan → relevantDrifts dd options ≠ [] →
      options.failOnSeverity = some lvl → lvl ≠ "" →
      severityOrder (jsToLower lvl) = none →
      evaluateDriftGateCore scan dd options = (1, true)) ∧
    (∀ (s : String) (b : Option Bool), severityOrder (jsToLower s) = none →
      driftRank ⟨some s, b⟩ = 0) ∧
    (∀ (scan : Scan) (dd : List Drift) (options : GateOptions),
      (evaluateDriftGateCore scan dd options).2 = true →
      ∃ lvl, options.failOnSeverity = some lvl ∧
        severityOrder (jsToLower lvl) = none) := by
  refine ⟨?_, ?_, ?_, ?_⟩
  · intro scan dd options
    rcases evaluateDriftGateCore_cases scan dd options with h | h | h <;>
      simp [evaluateDriftGate, h]
  · intro scan dd options lvl hreport hrel hsev hne hbad
    have hb : summaryBlocks scan = false := hreport
    have hne' : (lvl == "") = false := by simpa using hne
    obtain ⟨r, rs, hr⟩ : ∃ r rs, relevantDrifts dd options = r :: rs := by
      rcases h : relevantDrifts dd options with _ | ⟨r, rs⟩
      · exact absurd h hrel
      · exact ⟨r, rs, rfl⟩
    unfold evaluateDriftGateCore
    simp [hb, hr, hsev, severityFalsy, hne', hbad]
  · intro s b h
    simp [driftRank, h]
  · intro scan dd options h
    unfold evaluateDriftGateCore at h
    dsimp only at h
    repeat' split at h
    all_goals simp_all

/-- Witness for C7 at concrete inputs: the invalid level `"invalid-level"`
yields exit code 1 with the error reported, while the malformed drift
severity `"weird"` silently ranks 0. -/
theorem evaluateDriftGate_error_semantics_witness :
    (evaluateDriftGate ⟨"completed", some ⟨some true, some 1⟩⟩
        [⟨some "weird", some true⟩] ⟨false, some "invalid-level", false⟩ = 0 ∨
      evaluateDriftGate ⟨"completed", some ⟨some true, some 1⟩⟩
        [⟨some "weird", some true⟩] ⟨false, some "invalid-level", false⟩ = 1) ∧
    evaluateDriftGateCore ⟨"completed", some ⟨some true, some 1⟩⟩
      [⟨some "weird", some true⟩] ⟨false, some "invalid-level", false⟩ = (1, true) ∧
    driftRank ⟨some "weird", some true⟩ = 0 :=
  ⟨evaluateDriftGate_error_semantics.1 _ _ _,
   evaluateDriftGate_error_semantics.2.1 _ _ _ "invalid-level" (by decide)
     (by decide) rfl (by decide) (by decide),
   evaluateDriftGate_error_semantics.2.2.1 "weird" (some true) (by decide)⟩

/-- Claim C9: when the detail fetch after a successfully completed scan throws or
returns a non-array value, the completion handler proceeds with an empty
drift list, the gate evaluates to 0 on it, and the operation exits 0 even
though the summary reports drift and gate flags are configured. -/
theorem waitOperation_driftFetch_failure_passes
    (fetches : List (Except String Scan)) (timeoutMs : Nat) (scan : Scan)
    (driftFetch : DriftFetch) (options : GateOptions)
    (hsuccess : (waitForScan fetches timeoutMs).1 = WaitOutcome.success scan)
    (hfetch : driftFetch = DriftFetch.throws ∨ driftFetch = DriftFetch.nonArray)
    (hdrift : 0 < driftCount scan)
    (hgate : hasGateOptions options = true) :
    evaluateDriftGate scan [] options = 0 ∧
    waitOperationExit true fetches timeoutMs driftFetch options = some 0 := by
  have hnil : fetchedDriftDetails driftFetch = [] := by
    rcases hfetch with h | h <;> simp [h, fetchedDriftDetails]
  have hgate0 : evaluateDriftGate scan [] options = 0 := by
    simp [evaluateDriftGate,
      evaluateDriftGateCore_of_relevant_nil (relevantDrifts_nil options)]
  refine ⟨hgate0, ?_⟩
  unfold waitOperationExit
  rw [hsuccess]
  unfold handleCompleted
  simp [hdrift, hgate, hnil, hgate0]

/-- Witness for C9 at a concrete input: a completed scan summarizing three
drifts whose detail fetch throws passes the gate and exits 0 under
`failOnDrift` plus `failOnSeverity: "low"`. -/
theorem waitOperation_driftFetch_failure_passes_witness :
    evaluateDriftGate ⟨"completed", some ⟨some true, some 3⟩⟩ []
      ⟨true, some "low", false⟩ = 0 ∧
    waitOperationExit true [Except.ok ⟨"completed", some ⟨some true, some 3⟩⟩]
      600000 DriftFetch.throws ⟨true, some "low", false⟩ = some 0 :=
  waitOperation_driftFetch_failure_passes _ _ _ _ _ (by decide) (Or.inl rfl)
    (by decide) rfl

/-- Claim C10: the gate evaluator of `scan.js` and the extracted gate evaluator of
the scan-output module used by the refactored wait command are extensionally
equal: they return the same exit code on every input. -/
theorem scanOutput_evaluateDriftGate_eq :
    ∀ (scan : Scan) (driftDetails : List Drift) (options : GateOptions),
      ScanOutput.evaluateDriftGate scan driftDetails options =
        evaluateDriftGate scan driftDetails options := by
  intro scan driftDetails options
  rfl

/-- Claim C8: under a fixed valid `failOnSeverity` configuration the gate is
monotonic in drift severity: raising the severity rank of one drift in the
list, all else equal, can only change the result from 0 to 1, never from 1
to 0. -/
theorem evaluateDriftGate_severity_monotone
    (scan : Scan) (options : GateOptions) (lvl : String) (threshold : Nat)
    (pre post : List Drift) (d d' : Drift)
    (hsev : options.failOnSeverity = some lvl)
    (hthr : severityOrder (jsToLower lvl) = some threshold)
    (hnew : d.isNew = d'.isNew)
    (hrank : driftRank d ≤ driftRank d')
    (hfail : evaluateDriftGate scan (pre ++ d :: post) options = 1) :
    evaluateDriftGate scan (pre ++ d' :: post) options = 1 := by
  have hb : summaryBlocks scan = false := by
    cases hsb : summaryBlocks scan
    · rfl
    · exfalso
      have h0 := evaluateDriftGateCore_of_summaryBlocks (pre ++ d :: post) options hsb
      simp [evaluateDriftGate, h0] at hfail
  have hiff1 := gate_one_iff scan (pre ++ d :: post) options lvl threshold hb hsev hthr
  have hiff2 := gate_one_iff scan (pre ++ d' :: post) options lvl threshold hb hsev hthr
  rcases hiff1.mp hfail with ⟨x, hx, hxrank⟩
  apply hiff2.mpr
  rcases mem_relevantDrifts.mp hx with ⟨hxmem, hxnew⟩
  rcases List.mem_append.mp hxmem with hxpre | hxdc
  · exact ⟨x, mem_relevantDrifts.mpr ⟨List.mem_append.mpr (Or.inl hxpre), hxnew⟩, hxrank⟩
  · rcases List.mem_cons.mp hxdc with hxd | hxpost
    · subst hxd
      exact ⟨d', mem_relevantDrifts.mpr
        ⟨List.mem_append.mpr (Or.inr (List.mem_cons_self _ _)),
         fun hno => hnew ▸ hxnew hno⟩,
        le_trans hxrank hrank⟩
    · exact ⟨x, mem_relevantDrifts.mpr
        ⟨List.mem_append.mpr (Or.inr (List.mem_cons_of_mem _ hxpost)), hxnew⟩, hxrank⟩

/-- Witness for C8 at a concrete input: a failing `high` drift raised to
`critical` under threshold `high` still fails. -/
theorem evaluateDriftGate_severity_monotone_witness :
    evaluateDriftGate ⟨"completed", some ⟨some true, some 1⟩⟩
      ([] ++ Drift.mk (some "critical") none :: [])
      ⟨false, some "high", false⟩ = 1 :=
  evaluateDriftGate_severity_monotone _ _ "high" 3 [] [] ⟨some "high", none⟩ _
    rfl (by decide) rfl (by decide) (by decide)

/-! Helper lemmas about the poll loop. -/

theorem waitForScanLoop_nil (timeoutMs elapsed : Nat) :
    waitForScanLoop timeoutMs [] elapsed =
      if elapsed < timeoutMs then (WaitOutcome.pending, 0)
      else (WaitOutcome.timedOut, 0) := rfl

theorem waitForScanLoop_cons (timeoutMs : Nat) (fetch : Except String Scan)
    (rest : List (Except String Scan)) (elapsed : Nat) :
    waitForScanLoop timeoutMs (fetch :: rest) elapsed =
      if elapsed < timeoutMs then
        match fetch with
        | Except.error msg => (WaitOutcome.transportError msg, 1)
        | Except.ok scan =>
          if terminalStatuses.contains scan.status then
            if scan.status == "completed" then (WaitOutcome.success scan, 1)
            else if scan.status == "failed" then (WaitOutcome.scanFailed scan, 1)
            else (WaitOutcome.scanCancelled scan, 1)
          else
            ((waitForScanLoop timeoutMs rest (elapsed + pollInterval)).1,
             (waitForScanLoop timeoutMs rest (elapsed + pollInterval)).2 + 1)
      else (WaitOutcome.timedOut, 0) := rfl

theorem waitForScanLoop_skips_inflight (timeoutMs : Nat)
    (l : List (Except String Scan)) :
    ∀ (pre : List (Except String Scan)) (elapsed : Nat),
      (∀ x ∈ pre, inFlightFetch x = true) →
      elapsed + pre.length * pollInterval < timeoutMs →
      waitForScanLoop timeoutMs (pre ++ l) elapsed =
        ((waitForScanLoop timeoutMs l (elapsed + pre.length * pollInterval)).1,
         (waitForScanLoop timeoutMs l (elapsed + pre.length * pollInterval)).2 +
           pre.length) := by
  intro pre
  induction pre with
  | nil => intro elapsed _ _; simp
  | cons x pre ih =>
    intro elapsed hpre ht
    have hx := hpre x (List.mem_cons_self x pre)
    have hlt : elapsed < timeoutMs := lt_of_le_of_lt (Nat.le_add_right _ _) ht
    cases x with
    | error msg => simp [inFlightFetch] at hx
    | ok scan =>
      have hterm : terminalStatuses.contains scan.status = false := by
        simpa [inFlightFetch] using hx
      have heq : elapsed + pollInterval + pre.length * pollInterval =
          elapsed + (pre.length + 1) * pollInterval := by ring
      have ht' : elapsed + pollInterval + pre.length * pollInterval < timeoutMs := by
        rw [heq]; simpa using ht
      have hrec := ih (elapsed + pollInterval)
        (fun y hy => hpre y (List.mem_cons_of_mem _ hy)) ht'
      rw [List.cons_append, waitForScanLoop_cons, if_pos hlt]
      rw [show (Except.ok scan :: pre).length = pre.length + 1 from rfl]
      simp only [hterm, Bool.false_eq_true, if_false]
      rw [hrec, heq]
      simp [Nat.add_assoc]

theorem waitForScanLoop_all_inflight_timeout (timeoutMs : Nat) :
    ∀ (fetches : List (Except String Scan)) (elapsed : Nat),
      (∀ x ∈ fetches, inFlightFetch x = true) →
      timeoutMs ≤ elapsed + fetches.length * pollInterval →
      (waitForScanLoop timeoutMs fetches elapsed).1 = WaitOutcome.timedOut := by
  intro fetches
  induction fetches with
  | nil =>
    intro elapsed _ ht
    have hge : ¬ elapsed < timeoutMs := Nat.not_lt.mpr (by simpa using ht)
    rw [waitForScanLoop_nil, if_neg hge]
  | cons x rest ih =>
    intro elapsed hall ht
    by_cases hlt : elapsed < timeoutMs
    · have hx := hall x (List.mem_cons_self x rest)
      cases x with
      | error msg => simp [inFlightFetch] at hx
      | ok scan =>
        have hterm : terminalStatuses.contains scan.status = false := by
          simpa [inFlightFetch] using hx
        have heq : elapsed + pollInterval + rest.length * pollInterval =
            elapsed + (rest.length + 1) * pollInterval := by ring
        have ht' : timeoutMs ≤ elapsed + pollInterval + rest.length * pollInterval := by
          rw [heq]; simpa using ht
        have hrec := ih (elapsed + pollInterval)
          (fun y hy => hall y (List.mem_cons_of_mem _ hy)) ht'
        rw [waitForScanLoop_cons, if_pos hlt]
        simp only [hterm, Bool.false_eq_true, if_false]
        simpa using hrec
    · rw [waitForScanLoop_cons, if_neg hlt]

/-- Claim C3: the poller loops while elapsed time is below the timeout, fetching
the scan once per iteration: after any in-flight prefix still within the
timeout, it resolves to the success outcome at a `completed` fetch and to the
respective terminal-failure outcome at a `failed` or `cancelled` fetch,
having made one fetch per iteration; when every fetch stays in-flight until
the timeout elapses it resolves to the timeout outcome; and on the sequence
`queued, running, completed` under the default timeout it resolves with the
success outcome after exactly 3 fetch calls. -/
theorem waitForScan_poll_protocol :
    (∀ (pre rest : List (Except String Scan)) (scan : Scan) (timeoutMs : Nat),
      (∀ f ∈ pre, inFlightFetch f = true) →
      pre.length * pollInterval < timeoutMs →
      (scan.status = "completed" →
        waitForScan (pre ++ Except.ok scan :: rest) timeoutMs =
          (WaitOutcome.success scan, pre.length + 1)) ∧
      (scan.status = "failed" →
        waitForScan (pre ++ Except.ok scan :: rest) timeoutMs =
          (WaitOutcome.scanFailed scan, pre.length + 1)) ∧
      (scan.status = "cancelled" →
        waitForScan (pre ++ Except.ok scan :: rest) timeoutMs =
          (WaitOutcome.scanCancelled scan, pre.length + 1))) ∧
    (∀ (fetches : List (Except String Scan)) (timeoutMs : Nat),
      (∀ f ∈ fetches, inFlightFetch f = true) →
      timeoutMs ≤ fetches.length * pollInterval →
      (waitForScan fetches timeoutMs).1 = WaitOutcome.timedOut) ∧
    waitForScan
      [Except.ok ⟨"queued", none⟩, Except.ok ⟨"running", none⟩,
       Except.ok ⟨"completed", some ⟨some true, some 2⟩⟩] 600000 =
      (WaitOutcome.success ⟨"completed", some ⟨some true, some 2⟩⟩, 3) := by
  refine ⟨?_, ?_, by decide⟩
  · intro pre rest scan timeoutMs hpre ht
    have h0 : (0 : Nat) + pre.length * pollInterval < timeoutMs := by simpa using ht
    have hpfx := waitForScanLoop_skips_inflight timeoutMs
      (Except.ok scan :: rest) pre 0 hpre h0
    refine ⟨?_, ?_, ?_⟩ <;> intro hst <;>
      · unfold waitForScan
        rw [hpfx, waitForScanLoop_cons, if_pos h0]
        simp [hst, terminalStatuses, Nat.add_comm]
  · intro fetches timeoutMs hall ht
    exact waitForScanLoop_all_inflight_timeout timeoutMs fetches 0 hall (by simpa using ht)

/-- Witness for C3 at concrete inputs: `queued, failed` terminates with the
terminal-failure outcome after 2 fetches, and two in-flight polls under a
6-second timeout resolve to the timeout outcome. -/
theorem waitForScan_poll_protocol_witness :
    waitForScan [Except.ok ⟨"queued", none⟩, Except.ok ⟨"failed", none⟩] 600000 =
      (WaitOutcome.scanFailed ⟨"failed", none⟩, 2) ∧
    (waitForScan [Except.ok ⟨"queued", none⟩, Except.ok ⟨"running", none⟩] 6000).1 =
      WaitOutcome.timedOut :=
  ⟨(waitForScan_poll_protocol.1 [Except.ok ⟨"queued", none⟩] [] ⟨"failed", none⟩
      600000 (by decide) (by decide)).2.1 rfl,
   waitForScan_poll_protocol.2.1 _ 6000 (by decide) (by decide)⟩

/-- Claim C4: exit codes of the wait-for-scan operation: 1, before any polling,
when the scan identifier does not resolve; after a successful poll, 0 when no
gate is configured or the evaluated gate passes, and 1 when the configured
gate is evaluated on a drifting scan and fails; and 2 when the scan failed or
was cancelled, the timeout elapsed without a terminal status, or a transport
error occurred while polling. -/
theorem waitOperation_exit_codes :
    (∀ (fetches : List (Except String Scan)) (timeoutMs : Nat)
        (driftFetch : DriftFetch) (options : GateOptions),
      waitOperationExit false fetches timeoutMs driftFetch options = some 1) ∧
    (∀ (fetches : List (Except String Scan)) (timeoutMs : Nat)
        (driftFetch : DriftFetch) (options : GateOptions) (scan : Scan),
      (waitForScan fetches timeoutMs).1 = WaitOutcome.success scan →
      ((hasGateOptions options = false ∨
          evaluateDriftGate scan (fetchedDriftDetails driftFetch) options = 0) →
        waitOperationExit true fetches timeoutMs driftFetch options = some 0) ∧
      (hasGateOptions options = true →
        0 < driftCount scan →
        evaluateDriftGate scan (fetchedDriftDetails driftFetch) options = 1 →
        waitOperationExit true fetches timeoutMs driftFetch options = some 1)) ∧
    (∀ (fetches : List (Except String Scan)) (timeoutMs : Nat)
        (driftFetch : DriftFetch) (options : GateOptions) (scan : Scan),
      ((waitForScan fetches timeoutMs).1 = WaitOutcome.scanFailed scan ∨
        (waitForScan fetches timeoutMs).1 = WaitOutcome.scanCancelled scan) →
      waitOperationExit true fetches timeoutMs driftFetch options = some 2) ∧
    (∀ (fetches : List (Except String Scan)) (timeoutMs : Nat)
        (driftFetch : DriftFetch) (options : GateOptions),
      (waitForScan fetches timeoutMs).1 = WaitOutcome.timedOut →
      waitOperationExit true fetches timeoutMs driftFetch options = some 2) ∧
    (∀ (fetches : List (Except String Scan)) (timeoutMs : Nat)
        (driftFetch : DriftFetch) (options : GateOptions) (msg : String),
      (waitForScan fetches timeoutMs).1 = WaitOutcome.transportError msg →
      waitOperationExit true fetches timeoutMs driftFetch options = some 2) := by
  refine ⟨?_, ?_, ?_, ?_, ?_⟩
  · intro fetches timeoutMs driftFetch options
    rfl
  · intro fetches timeoutMs driftFetch options scan hsuccess
    constructor
    · intro hpass
      unfold waitOperationExit
      rw [hsuccess]
      unfold handleCompleted
      rcases hpass with h | h
      · simp [h]
      · by_cases hg : hasGateOptions options <;> simp [hg, h]
    · intro hgate hcount hfail
      unfold waitOperationExit
      rw [hsuccess]
      unfold handleCompleted
      simp [hgate, hcount, hfail]
  · intro fetches timeoutMs driftFetch options scan h
    unfold waitOperationExit
    rcases h with h | h <;> rw [h] <;> rfl
  · intro fetches timeoutMs driftFetch options h
    unfold waitOperationExit
    rw [h]
    rfl
  · intro fetches timeoutMs driftFetch options msg h
    unfold waitOperationExit
    rw [h]
    rfl

/-- Witness for C4 at concrete inputs, one per exit-code clause. -/
theorem waitOperation_exit_codes_witness :
    waitOperationExit false [] 600000 DriftFetch.nonArray ⟨false, none, false⟩ = some 1 ∧
    waitOperationExit true [Except.ok ⟨"completed", some ⟨some true, some 1⟩⟩] 600000
      (DriftFetch.ok [⟨some "low", some true⟩]) ⟨false, none, false⟩ = some 0 ∧
    waitOperationExit true [Except.ok ⟨"completed", some ⟨some true, some 1⟩⟩] 600000
      (DriftFetch.ok [⟨some "low", some true⟩]) ⟨true, none, false⟩ = some 1 ∧
    waitOperationExit true [Except.ok ⟨"failed", none⟩] 600000 DriftFetch.nonArray
      ⟨false, none, false⟩ = some 2 ∧
    waitOperationExit true [] 0 DriftFetch.nonArray ⟨false, none, false⟩ = some 2 ∧
    waitOperationExit true [Except.error "ECONNREFUSED"] 600000 DriftFetch.nonArray
      ⟨false, none, false⟩ = some 2 :=
  ⟨waitOperation_exit_codes.1 _ _ _ _,
   (waitOperation_exit_codes.2.1 _ _ _ _
      ⟨"completed", some ⟨some true, some 1⟩⟩ (by decide)).1 (Or.inl rfl),
   (waitOperation_exit_codes.2.1 _ _ _ _
      ⟨"completed", some ⟨some true, some 1⟩⟩ (by decide)).2 rfl (by decide) (by decide),
   waitOperation_exit_codes.2.2.1 _ _ _ _ ⟨"failed", none⟩ (Or.inl (by decide)),
   waitOperation_exit_codes.2.2.2.1 _ _ _ _ (by decide),
   waitOperation_exit_codes.2.2.2.2 _ _ _ _ "ECONNREFUSED" (by decide)⟩

end ControlInfra
